import Mathlib

/-!
Shallow embedding of the english_guru chat application.

The embedded code consists of:
- `src/services/geminiService.ts`: the session adapter around the remote
  chat API (`initializeChat`, `sendMessageStream`), with its module-level
  `apiKey` and `chatInstance` state made explicit in `ServiceState`;
- `src/App.tsx`: the conversation view-model (`handleSendMessage`,
  `handleReset`, the mount effect), with its React state (`messages`,
  `inputValue`, `isLoading`) made explicit in `AppState`.

The remote network stream is represented by a `StreamOutcome` parameter:
either the stream resolves after delivering a list of response chunks, or
it fails after delivering some chunks, carrying the error's message string.
Message ids, produced in the source by `generateId` (timestamp + random,
unique by construction), are modelled by a fresh-id counter `nextId`.
-/

namespace EnglishGuru

/-- Message roles, from `src/types` (`Role.USER`, `Role.MODEL`). -/
inductive Role where
  | USER
  | MODEL
deriving DecidableEq, Repr

/-- A chat message record (`Message` in `src/types`): opaque unique id,
role, text, and the optional `isError` flag (absent = `false`).
The timestamp field plays no role in any claim and is omitted. -/
structure Message where
  id : Nat
  role : Role
  text : String
  isError : Bool
deriving DecidableEq, Repr

/-- A session handle (`Chat`) as configured by `ai.chats.create` in
`initializeChat`: model name, system instruction, sampling temperature. -/
structure Chat where
  model : String
  systemInstruction : String
  temperature : Rat
deriving DecidableEq, Repr

/-- The module-level state of `src/services/geminiService.ts`:
the `apiKey` read at startup and the `chatInstance` variable. -/
structure ServiceState where
  apiKey : String
  chatInstance : Option Chat
deriving DecidableEq, Repr

/-- The React state of `App`: the message list, the pending input
value, and the busy flag `isLoading`. -/
structure AppState where
  messages : List Message
  inputValue : String
  isLoading : Bool
deriving DecidableEq, Repr

/-- The whole program state: app state, service state, and the fresh-id
counter standing in for `generateId`. -/
structure World where
  app : AppState
  svc : ServiceState
  nextId : Nat
deriving DecidableEq, Repr

/-- The fixed system instruction string of `geminiService.ts`
(template literal, lines 25-39 of the source). -/
def SYSTEM_INSTRUCTION : String :=
  "\n당신은 영어를 배우는 사용자를 돕는 친절하고 유능한 \'AI 영어 문법 선생님\'입니다. \n사용자가 영어(또는 콩글리시)로 문장을 입력하면 다음의 과정을 따르세요:\n\n1. **분석**: 사용자의 입력 문장에서 문법, 철자, 자연스러운 원어민 표현 등을 분석합니다.\n2. **교정 및 설명**:\n   - 오류가 있거나 더 자연스러운 표현이 필요하다면, \"🔍 **Correction**: [수정된 영어 문장]\" 형식으로 보여주고, 그 아래에 \"💡 **Explanation**: [한국어로 된 간단하고 명확한 문법/표현 설명]\"을 덧붙이세요.\n   - 문장이 문법적으로 완벽하고 자연스럽다면, \"✅ Perfect!\"라고 짧게 칭찬해주세요.\n3. **대화 지속**: 문법 피드백이 끝난 후, 사용자의 말에 **영어**로 자연스럽게 반응하며 대화를 이어가세요. 사용자가 영어를 더 많이 연습할 수 있도록 흥미로운 질문을 던져주세요.\n\n톤앤매너: \n- 설명(Explanation)은 한국어로 친절하게 해주세요.\n- 교정(Correction)과 대화(Conversation)는 영어로 진행하세요.\n- 이모지를 적절히 사용하여 딱딱하지 않고 즐거운 분위기를 만들어주세요.\n"

/-- The chat configuration passed to `ai.chats.create` in `initializeChat`:
model `gemini-2.5-flash`, the fixed system instruction, temperature 0.7. -/
def defaultChatConfig : Chat :=
  { model := "gemini-2.5-flash"
    systemInstruction := SYSTEM_INSTRUCTION
    temperature := 7 / 10 }

/-- `initializeChat` (geminiService.ts lines 43-52): creates a fresh session
handle with the fixed configuration, replaces `chatInstance`, returns it. -/
def initializeChat (s : ServiceState) : ServiceState × Chat :=
  ({ s with chatInstance := some defaultChatConfig }, defaultChatConfig)

/-- One chunk of the server-sent stream, as consumed by the
`for await` loop: only its `text` field is read. -/
structure GenerateContentResponse where
  text : String
deriving DecidableEq, Repr

/-- What the remote stream does on a given turn: resolves after delivering
`chunks`, or fails after delivering `chunks`, with error message `errMsg`. -/
inductive StreamOutcome where
  | success (chunks : List GenerateContentResponse)
  | failure (chunks : List GenerateContentResponse) (errMsg : String)
deriving DecidableEq, Repr

/-- The chunks a stream outcome delivers (all of them on success, the
ones received before the error on failure). -/
def chunksOf : StreamOutcome → List GenerateContentResponse
  | .success cs => cs
  | .failure cs _ => cs

/-- How a call to `sendMessageStream` ends: the promise resolves, or it
rejects with an error whose `message` is the given string. -/
inductive SendResult where
  | resolved
  | rejected (errMsg : String)
deriving DecidableEq, Repr

/-- The error message thrown by `sendMessageStream` when `apiKey` is empty. -/
def missingKeyErrorText : String :=
  "API_KEY is missing. Please check your environment variables."

/-- The error message thrown when `chatInstance` is still null after lazy
initialization (dead in practice, kept faithful to the source). -/
def nullInstanceErrorText : String :=
  "Chat instance could not be initialized."

/-- The `for await` loop of `sendMessageStream` (lines 73-78): walks the
chunks in arrival order and, for each chunk whose `text` is truthy
(non-empty), invokes `onChunk` with it. `log` records the sequence of
`onChunk` invocations made so far, in order. -/
def streamLoop : List GenerateContentResponse → List String → List String
  | [], log => log
  | c :: rest, log =>
      if c.text = "" then streamLoop rest log
      else streamLoop rest (log ++ [c.text])

/-- Everything observable about one `sendMessageStream` call: how the
promise ends, the exact sequence of `onChunk` invocations, whether the
remote service was contacted, and the service state afterwards. -/
structure SendOutcome where
  result : SendResult
  delivered : List String
  networkCalled : Bool
  svcAfter : ServiceState
deriving DecidableEq, Repr

/-- The lazy-init fallback inside `sendMessageStream` (lines 62-64):
`if (!chatInstance) initializeChat();`. -/
def lazyInitSvc (s : ServiceState) : ServiceState :=
  if s.chatInstance = none then (initializeChat s).1 else s

/-- `sendMessageStream` (geminiService.ts lines 54-83): throws immediately
when the api key is absent (before any network activity); lazily calls
`initializeChat` when no handle exists; then opens the stream and runs
the chunk loop; a stream failure is logged and rethrown. -/
def sendMessageStream (s : ServiceState) (message : String)
    (outcome : StreamOutcome) : SendOutcome :=
  if s.apiKey = "" then
    { result := .rejected missingKeyErrorText, delivered := [],
      networkCalled := false, svcAfter := s }
  else
    let s1 := lazyInitSvc s
    match s1.chatInstance with
    | none =>
        { result := .rejected nullInstanceErrorText, delivered := [],
          networkCalled := false, svcAfter := s1 }
    | some _ =>
        match outcome with
        | .success cs =>
            { result := .resolved, delivered := streamLoop cs [],
              networkCalled := true, svcAfter := s1 }
        | .failure cs em =>
            { result := .rejected em, delivered := streamLoop cs [],
              networkCalled := true, svcAfter := s1 }

/-- The greeting message text added by the mount effect (App.tsx line 30). -/
def greetingText : String :=
  "Hello! I\'m your **AI English Teacher**. 👋\n\n영어로 문장을 입력해주시면 문법을 교정해드리고 영어로 대화도 나눠요! \nLet\'s start practicing! 🇺🇸🇬🇧"

/-- The greeting message text set by `handleReset` (App.tsx line 70). -/
def resetGreetingText : String :=
  "Conversation reset. What would you like to talk about? ✨"

/-- The user-facing text for a missing-credential failure (App.tsx line 135). -/
def configErrorDisplayText : String :=
  "API Key configuration error. Please check your environment settings."

/-- The generic user-facing apology text (App.tsx line 136). -/
def genericErrorDisplayText : String :=
  "Sorry, I encountered an error. Please try again later. 😥"

/-- Is `n` a prefix of `h`, on character lists. -/
def listPrefixOf : List Char → List Char → Bool
  | [], _ => true
  | _ :: _, [] => false
  | a :: as, b :: bs => a = b && listPrefixOf as bs

/-- JavaScript `haystack.includes(needle)`: the needle occurs as a
contiguous substring of the haystack. -/
def strContains (haystack needle : String) : Bool :=
  (List.range (haystack.data.length + 1)).any
    (fun i => listPrefixOf needle.data (haystack.data.drop i))

/-- JavaScript `s.trim()`: the string with leading and trailing
whitespace removed. -/
def strTrim (s : String) : String :=
  ⟨((s.data.dropWhile Char.isWhitespace).reverse.dropWhile Char.isWhitespace).reverse⟩

/-- The error-to-display-string mapping of the catch block in
`handleSendMessage` (App.tsx lines 133-136): the configuration-specific
text when the error message mentions `API_KEY`, the generic apology
otherwise. -/
def displayErrorFor (errMsg : String) : String :=
  if strContains errMsg "API_KEY" then configErrorDisplayText
  else genericErrorDisplayText

/-- The closure state of the per-chunk callback in `handleSendMessage`
(App.tsx lines 101-128): the current message list, the id of the AI bubble
once created (`aiMessageId`), the accumulated text, and the fresh-id
counter. -/
structure ChunkState where
  messages : List Message
  aiMessageId : Option Nat
  accumulatedText : String
  nextId : Nat
deriving DecidableEq, Repr

/-- One invocation of the `onChunk` callback (App.tsx lines 106-129):
append the chunk to `accumulatedText`; on the first chunk create a new
`MODEL` message holding the accumulated text; on later chunks update the
existing message with that id to the accumulated text. -/
def onChunkStep (st : ChunkState) (chunk : String) : ChunkState :=
  let acc := st.accumulatedText ++ chunk
  match st.aiMessageId with
  | none =>
      { messages := st.messages ++
          [{ id := st.nextId, role := Role.MODEL, text := acc, isError := false }]
        aiMessageId := some st.nextId
        accumulatedText := acc
        nextId := st.nextId + 1 }
  | some aid =>
      { st with
        messages := st.messages.map
          (fun m => if m.id = aid then { m with text := acc } else m)
        accumulatedText := acc }

/-- `handleSendMessage` (App.tsx lines 81-151), as one sequential step
given the remote stream's behavior for this turn: the no-op guard for
empty trimmed input or busy state; appending the user message and setting
busy; the per-chunk callback replayed over the delivered fragments; the
catch block appending one error-flagged message; the finally block
clearing busy. -/
def handleSendMessage (w : World) (outcome : StreamOutcome) : World :=
  if strTrim w.app.inputValue = "" ∨ w.app.isLoading = true then w
  else
    let userText := strTrim w.app.inputValue
    let userMsg : Message :=
      { id := w.nextId, role := Role.USER, text := userText, isError := false }
    let msgs1 := w.app.messages ++ [userMsg]
    let send := sendMessageStream w.svc userText outcome
    let cst0 : ChunkState :=
      { messages := msgs1, aiMessageId := none,
        accumulatedText := "", nextId := w.nextId + 1 }
    let cst := send.delivered.foldl onChunkStep cst0
    match send.result with
    | .resolved =>
        { app := { messages := cst.messages, inputValue := "", isLoading := false }
          svc := send.svcAfter
          nextId := cst.nextId }
    | .rejected em =>
        { app :=
            { messages := cst.messages ++
                [{ id := cst.nextId, role := Role.MODEL,
                   text := displayErrorFor em, isError := true }]
              inputValue := ""
              isLoading := false }
          svc := send.svcAfter
          nextId := cst.nextId + 1 }

/-- `handleReset` (App.tsx lines 62-79): behind the `window.confirm`
prompt, re-initialize the session, replace the whole message list with a
single fresh greeting, clear the input. Declining the prompt does
nothing. The busy flag is not touched. -/
def handleReset (w : World) (confirmed : Bool) : World :=
  if confirmed then
    { app :=
        { messages :=
            [{ id := w.nextId, role := Role.MODEL,
               text := resetGreetingText, isError := false }]
          inputValue := ""
          isLoading := w.app.isLoading }
      svc := (initializeChat w.svc).1
      nextId := w.nextId + 1 }
  else w

/-- The mount effect (App.tsx lines 20-38): initialize the chat and add
the initial greeting when the message list is empty. -/
def mountEffect (w : World) : World :=
  if w.app.messages.length > 0 then
    { w with svc := (initializeChat w.svc).1 }
  else
    { app := { w.app with messages :=
        [{ id := w.nextId, role := Role.MODEL,
           text := greetingText, isError := false }] }
      svc := (initializeChat w.svc).1
      nextId := w.nextId + 1 }

/-- Typing text into the input box (`setInputValue` via `onChange`). -/
def setInput (w : World) (t : String) : World :=
  { w with app := { w.app with inputValue := t } }

/-- The program state at startup, before the mount effect: no messages,
empty input, not busy, no session handle, with the configured api key. -/
def initWorld (key : String) : World :=
  { app := { messages := [], inputValue := "", isLoading := false }
    svc := { apiKey := key, chatInstance := none }
    nextId := 0 }

/-- A sequence of send turns: for each, the text typed into the input box
and the chunks the remote stream delivers before resolving. -/
def runSends (w : World) (sends : List (String × List GenerateContentResponse)) : World :=
  sends.foldl
    (fun wa s => handleSendMessage (setInput wa s.1) (StreamOutcome.success s.2)) w

/-- Concatenation of a list of fragments, in order. -/
def concatFragments : List String → String
  | [] => ""
  | f :: rest => f ++ concatFragments rest

/-- All message ids in the world are below the fresh-id counter; this is
the model-level counterpart of `generateId` never repeating an id. -/
def idsBounded (w : World) : Prop :=
  ∀ m ∈ w.app.messages, m.id < w.nextId

instance (w : World) : Decidable (idsBounded w) := by
  unfold idsBounded; infer_instance

/-! ### Helper lemmas about the streaming loop -/

lemma streamLoop_append (cs : List GenerateContentResponse) (log : List String) :
    streamLoop cs log = log ++ streamLoop cs [] := by
  induction cs generalizing log with
  | nil => simp [streamLoop]
  | cons c rest ih =>
      by_cases h : c.text = ""
      · rw [streamLoop, if_pos h, streamLoop, if_pos h]
        exact ih log
      · rw [streamLoop, if_neg h, streamLoop, if_neg h, ih (log ++ [c.text]),
          ih (List.nil ++ [c.text])]
        simp

lemma streamLoop_eq_filter (cs : List GenerateContentResponse) :
    streamLoop cs []
      = (cs.map GenerateContentResponse.text).filter (fun t => !(t == "")) := by
  induction cs with
  | nil => rfl
  | cons c rest ih =>
      by_cases h : c.text = ""
      · rw [streamLoop, if_pos h]
        simp [h, ih]
      · rw [streamLoop, if_neg h, streamLoop_append]
        simp [h, ih]

lemma lazyInitSvc_apiKey (s : ServiceState) : (lazyInitSvc s).apiKey = s.apiKey := by
  unfold lazyInitSvc initializeChat
  split <;> rfl

lemma sendMessageStream_success (s : ServiceState) (m : String)
    (cs : List GenerateContentResponse) (hkey : ¬ s.apiKey = "") :
    sendMessageStream s m (StreamOutcome.success cs)
      = { result := .resolved, delivered := streamLoop cs [],
          networkCalled := true, svcAfter := lazyInitSvc s } := by
  obtain ⟨key, inst⟩ := s
  cases inst <;>
    simp [sendMessageStream, lazyInitSvc, initializeChat, hkey]

lemma sendMessageStream_failure (s : ServiceState) (m : String)
    (cs : List GenerateContentResponse) (em : String) (hkey : ¬ s.apiKey = "") :
    sendMessageStream s m (StreamOutcome.failure cs em)
      = { result := .rejected em, delivered := streamLoop cs [],
          networkCalled := true, svcAfter := lazyInitSvc s } := by
  obtain ⟨key, inst⟩ := s
  cases inst <;>
    simp [sendMessageStream, lazyInitSvc, initializeChat, hkey]

/-! ### Helper lemmas about the per-chunk callback -/

lemma foldl_onChunkStep_active (rest : List String) (base : List Message)
    (aiMsg : Message) (n : Nat) (hrole : aiMsg.role = Role.MODEL)
    (herr : aiMsg.isError = false) (hbase : ∀ m ∈ base, m.id ≠ aiMsg.id) :
    rest.foldl onChunkStep
      { messages := base ++ [aiMsg], aiMessageId := some aiMsg.id,
        accumulatedText := aiMsg.text, nextId := n }
    = { messages := base ++
          [{ id := aiMsg.id, role := Role.MODEL,
             text := aiMsg.text ++ concatFragments rest, isError := false }],
        aiMessageId := some aiMsg.id,
        accumulatedText := aiMsg.text ++ concatFragments rest, nextId := n } := by
  induction rest generalizing aiMsg with
  | nil =>
      obtain ⟨i, r, t, e⟩ := aiMsg
      simp_all [concatFragments, String.append_empty]
  | cons f fs ih =>
      rw [List.foldl_cons]
      have hmap : onChunkStep
          { messages := base ++ [aiMsg], aiMessageId := some aiMsg.id,
            accumulatedText := aiMsg.text, nextId := n } f
          = { messages := base ++ [{ aiMsg with text := aiMsg.text ++ f }],
              aiMessageId := some aiMsg.id,
              accumulatedText := aiMsg.text ++ f, nextId := n } := by
        simp only [onChunkStep, List.map_append]
        have h1 : base.map (fun m =>
            if m.id = aiMsg.id then { m with text := aiMsg.text ++ f } else m) = base := by
          rw [List.map_congr_left (fun m hm => if_neg (hbase m hm))]
          simp
        have h2 : [aiMsg].map (fun m =>
            if m.id = aiMsg.id then { m with text := aiMsg.text ++ f } else m)
            = [{ aiMsg with text := aiMsg.text ++ f }] := by
          simp
        rw [h1, h2]
      rw [hmap]
      have := ih { aiMsg with text := aiMsg.text ++ f } hrole herr hbase
      simp only at this
      rw [this]
      simp [concatFragments, String.append_assoc]

lemma foldl_onChunkStep_start (f : String) (fs : List String)
    (msgs : List Message) (n : Nat) (h : ∀ m ∈ msgs, m.id < n) :
    (f :: fs).foldl onChunkStep
      { messages := msgs, aiMessageId := none, accumulatedText := "", nextId := n }
    = { messages := msgs ++
          [{ id := n, role := Role.MODEL,
             text := f ++ concatFragments fs, isError := false }],
        aiMessageId := some n,
        accumulatedText := f ++ concatFragments fs, nextId := n + 1 } := by
  rw [List.foldl_cons]
  have h0 : onChunkStep
      { messages := msgs, aiMessageId := none, accumulatedText := "", nextId := n } f
      = { messages := msgs ++
            [{ id := n, role := Role.MODEL, text := "" ++ f, isError := false }],
          aiMessageId := some n, accumulatedText := "" ++ f, nextId := n + 1 } := by
    simp [onChunkStep]
  rw [h0]
  have := foldl_onChunkStep_active fs msgs
    { id := n, role := Role.MODEL, text := "" ++ f, isError := false } (n + 1)
    rfl rfl (fun m hm => Nat.ne_of_lt (h m hm))
  simp only at this
  rw [this, String.empty_append]

/-! ### Shape lemmas for one send turn -/

lemma sendGuard_false (w : World)
    (hin : ¬ strTrim w.app.inputValue = "") (hbusy : w.app.isLoading = false) :
    ¬ (strTrim w.app.inputValue = "" ∨ w.app.isLoading = true) := by
  rintro (h | h)
  · exact hin h
  · rw [hbusy] at h
    exact Bool.false_ne_true h

lemma userBound (w : World) (hids : idsBounded w) :
    ∀ m ∈ w.app.messages ++
      [{ id := w.nextId, role := Role.USER,
         text := strTrim w.app.inputValue, isError := false }],
      m.id < w.nextId + 1 := by
  intro m hm
  rcases List.mem_append.mp hm with h | h
  · exact Nat.lt_succ_of_lt (hids m h)
  · simp only [List.mem_singleton] at h
    subst h
    exact Nat.lt_succ_self _

lemma handleSendMessage_success_cons (w : World) (cs : List GenerateContentResponse)
    (f : String) (fs : List String)
    (hin : ¬ strTrim w.app.inputValue = "") (hbusy : w.app.isLoading = false)
    (hkey : ¬ w.svc.apiKey = "") (hids : idsBounded w)
    (hfs : streamLoop cs [] = f :: fs) :
    handleSendMessage w (StreamOutcome.success cs)
      = { app :=
            { messages := w.app.messages ++
                [{ id := w.nextId, role := Role.USER,
                   text := strTrim w.app.inputValue, isError := false },
                 { id := w.nextId + 1, role := Role.MODEL,
                   text := f ++ concatFragments fs, isError := false }]
              inputValue := ""
              isLoading := false }
          svc := lazyInitSvc w.svc
          nextId := w.nextId + 2 } := by
  rw [handleSendMessage, if_neg (sendGuard_false w hin hbusy)]
  simp only [sendMessageStream_success _ _ _ hkey, hfs,
    foldl_onChunkStep_start f fs _ _ (userBound w hids)]
  simp [List.append_assoc]

lemma handleSendMessage_success_nil (w : World) (cs : List GenerateContentResponse)
    (hin : ¬ strTrim w.app.inputValue = "") (hbusy : w.app.isLoading = false)
    (hkey : ¬ w.svc.apiKey = "") (hfs : streamLoop cs [] = []) :
    handleSendMessage w (StreamOutcome.success cs)
      = { app :=
            { messages := w.app.messages ++
                [{ id := w.nextId, role := Role.USER,
                   text := strTrim w.app.inputValue, isError := false }]
              inputValue := ""
              isLoading := false }
          svc := lazyInitSvc w.svc
          nextId := w.nextId + 1 } := by
  rw [handleSendMessage, if_neg (sendGuard_false w hin hbusy)]
  simp only [sendMessageStream_success _ _ _ hkey, hfs, List.foldl_nil]

lemma handleSendMessage_failure_cons (w : World) (cs : List GenerateContentResponse)
    (em : String) (f : String) (fs : List String)
    (hin : ¬ strTrim w.app.inputValue = "") (hbusy : w.app.isLoading = false)
    (hkey : ¬ w.svc.apiKey = "") (hids : idsBounded w)
    (hfs : streamLoop cs [] = f :: fs) :
    handleSendMessage w (StreamOutcome.failure cs em)
      = { app :=
            { messages := w.app.messages ++
                [{ id := w.nextId, role := Role.USER,
                   text := strTrim w.app.inputValue, isError := false },
                 { id := w.nextId + 1, role := Role.MODEL,
                   text := f ++ concatFragments fs, isError := false },
                 { id := w.nextId + 2, role := Role.MODEL,
                   text := displayErrorFor em, isError := true }]
              inputValue := ""
              isLoading := false }
          svc := lazyInitSvc w.svc
          nextId := w.nextId + 3 } := by
  rw [handleSendMessage, if_neg (sendGuard_false w hin hbusy)]
  simp only [sendMessageStream_failure _ _ _ _ hkey, hfs,
    foldl_onChunkStep_start f fs _ _ (userBound w hids)]
  simp [List.append_assoc]

lemma handleSendMessage_failure_nil (w : World) (cs : List GenerateContentResponse)
    (em : String)
    (hin : ¬ strTrim w.app.inputValue = "") (hbusy : w.app.isLoading = false)
    (hkey : ¬ w.svc.apiKey = "") (hfs : streamLoop cs [] = []) :
    handleSendMessage w (StreamOutcome.failure cs em)
      = { app :=
            { messages := w.app.messages ++
                [{ id := w.nextId, role := Role.USER,
                   text := strTrim w.app.inputValue, isError := false },
                 { id := w.nextId + 1, role := Role.MODEL,
                   text := displayErrorFor em, isError := true }]
              inputValue := ""
              isLoading := false }
          svc := lazyInitSvc w.svc
          nextId := w.nextId + 2 } := by
  rw [handleSendMessage, if_neg (sendGuard_false w hin hbusy)]
  simp only [sendMessageStream_failure _ _ _ _ hkey, hfs, List.foldl_nil]
  simp [List.append_assoc]

lemma displayErrorFor_missingKey :
    displayErrorFor missingKeyErrorText = configErrorDisplayText := by
  decide

lemma handleSendMessage_missingKey (w : World) (outcome : StreamOutcome)
    (hin : ¬ strTrim w.app.inputValue = "") (hbusy : w.app.isLoading = false)
    (hkey : w.svc.apiKey = "") :
    handleSendMessage w outcome
      = { app :=
            { messages := w.app.messages ++
                [{ id := w.nextId, role := Role.USER,
                   text := strTrim w.app.inputValue, isError := false },
                 { id := w.nextId + 1, role := Role.MODEL,
                   text := configErrorDisplayText, isError := true }]
              inputValue := ""
              isLoading := false }
          svc := w.svc
          nextId := w.nextId + 2 } := by
  rw [handleSendMessage, if_neg (sendGuard_false w hin hbusy)]
  have hsend : sendMessageStream w.svc (strTrim w.app.inputValue) outcome
      = { result := .rejected missingKeyErrorText, delivered := [],
          networkCalled := false, svcAfter := w.svc } := by
    rw [sendMessageStream, if_pos hkey]
  simp only [hsend, List.foldl_nil, displayErrorFor_missingKey]
  simp [List.append_assoc]

/-! ### Shape of a whole run of successful sends -/

lemma runSends_cons (w : World) (s : String × List GenerateContentResponse)
    (rest : List (String × List GenerateContentResponse)) :
    runSends w (s :: rest)
      = runSends (handleSendMessage (setInput w s.1) (StreamOutcome.success s.2)) rest := by
  rfl

lemma runSends_shape (sends : List (String × List GenerateContentResponse)) (w : World)
    (hids : idsBounded w) (hbusy : w.app.isLoading = false) (hkey : ¬ w.svc.apiKey = "")
    (hsends : ∀ s ∈ sends, ¬ strTrim s.1 = "" ∧ streamLoop s.2 [] ≠ []) :
    (runSends w sends).app.messages.map Message.role
        = w.app.messages.map Message.role
          ++ (sends.map (fun _ => [Role.USER, Role.MODEL])).flatten
    ∧ ((runSends w sends).app.messages.filter (fun m => m.role == Role.USER)).map
          Message.text
        = ((w.app.messages.filter (fun m => m.role == Role.USER)).map Message.text)
          ++ sends.map (fun s => strTrim s.1) := by
  induction sends generalizing w with
  | nil => simp [runSends]
  | cons s rest ih =>
      obtain ⟨t, cs⟩ := s
      obtain ⟨hne, hfs0⟩ := hsends _ (List.mem_cons_self _ _)
      obtain ⟨f, fs, hfs⟩ := List.exists_cons_of_ne_nil hfs0
      have hstep := handleSendMessage_success_cons (setInput w t) cs f fs
        hne hbusy hkey hids hfs
      rw [runSends_cons, hstep]
      have hids1 : idsBounded
          { app :=
              { messages := (setInput w t).app.messages ++
                  [{ id := (setInput w t).nextId, role := Role.USER,
                     text := strTrim (setInput w t).app.inputValue, isError := false },
                   { id := (setInput w t).nextId + 1, role := Role.MODEL,
                     text := f ++ concatFragments fs, isError := false }]
                inputValue := ""
                isLoading := false }
            svc := lazyInitSvc (setInput w t).svc
            nextId := (setInput w t).nextId + 2 } := by
        intro m hm
        rcases List.mem_append.mp hm with h | h
        · exact Nat.lt_of_lt_of_le (hids m h) (Nat.le_add_right _ _)
        · simp only [List.mem_cons, List.not_mem_nil, or_false] at h
          rcases h with h | h
          · subst h
            show (setInput w t).nextId < (setInput w t).nextId + 2
            omega
          · subst h
            show (setInput w t).nextId + 1 < (setInput w t).nextId + 2
            omega
      have hik : ¬ (lazyInitSvc (setInput w t).svc).apiKey = "" := by
        rw [lazyInitSvc_apiKey]; exact hkey
      have hrest := ih _ hids1 rfl hik (fun s hs => hsends s (List.mem_cons_of_mem _ hs))
      obtain ⟨hroles, htexts⟩ := hrest
      constructor
      · rw [hroles]
        simp [setInput, List.append_assoc]
      · rw [htexts]
        simp [setInput, List.append_assoc]

/-! ### Claim theorems -/

/-- Claim C1: streamed fragments are reconciled by concatenation — for any
turn whose stream resolves after delivering non-empty fragments
`f :: fs` to the per-chunk callback, the resulting assistant message's
text equals the concatenation of all fragments in arrival order, appended
after the user message (not a last-write-wins replacement). -/
theorem streamed_fragments_concatenate (w : World)
    (cs : List GenerateContentResponse) (f : String) (fs : List String)
    (hin : ¬ strTrim w.app.inputValue = "") (hbusy : w.app.isLoading = false)
    (hkey : ¬ w.svc.apiKey = "") (hids : idsBounded w)
    (hfs : streamLoop cs [] = f :: fs) :
    (handleSendMessage w (StreamOutcome.success cs)).app.messages
      = w.app.messages ++
        [{ id := w.nextId, role := Role.USER,
           text := strTrim w.app.inputValue, isError := false },
         { id := w.nextId + 1, role := Role.MODEL,
           text := concatFragments (f :: fs), isError := false }] := by
  rw [handleSendMessage_success_cons w cs f fs hin hbusy hkey hids hfs,
    concatFragments]

/-- Witness for C1 at the spec's concrete example: fragments
`["Hello", " world"]` yield assistant text `"Hello world"`. -/
theorem streamed_fragments_concatenate_witness :
    (handleSendMessage
        { app := { messages := [], inputValue := "Hi", isLoading := false }
          svc := { apiKey := "k", chatInstance := none }
          nextId := 0 }
        (StreamOutcome.success [⟨"Hello"⟩, ⟨" world"⟩])).app.messages
      = [{ id := 0, role := Role.USER, text := "Hi", isError := false },
         { id := 1, role := Role.MODEL, text := "Hello world", isError := false }] := by
  have h := streamed_fragments_concatenate
    { app := { messages := [], inputValue := "Hi", isLoading := false }
      svc := { apiKey := "k", chatInstance := none }
      nextId := 0 }
    [⟨"Hello"⟩, ⟨" world"⟩] "Hello" [" world"]
    (by decide) rfl (by decide) (by intro m hm; cases hm) (by decide)
  rw [h]
  decide

/-- Claim C2: sending with no credential configured never issues a network
call, and the message list gains the user message plus exactly one
error-flagged message carrying the configuration-specific text, which is
distinct from the generic apology. -/
theorem missing_credential_send (w : World) (outcome : StreamOutcome)
    (hkey : w.svc.apiKey = "")
    (hin : ¬ strTrim w.app.inputValue = "") (hbusy : w.app.isLoading = false) :
    (sendMessageStream w.svc (strTrim w.app.inputValue) outcome).networkCalled = false
    ∧ (handleSendMessage w outcome).app.messages
        = w.app.messages ++
          [{ id := w.nextId, role := Role.USER,
             text := strTrim w.app.inputValue, isError := false },
           { id := w.nextId + 1, role := Role.MODEL,
             text := configErrorDisplayText, isError := true }]
    ∧ ¬ configErrorDisplayText = genericErrorDisplayText := by
  refine ⟨?_, ?_, by decide⟩
  · rw [sendMessageStream, if_pos hkey]
  · rw [handleSendMessage_missingKey w outcome hin hbusy hkey]

/-- Witness for C2: a concrete send with an empty api key. -/
theorem missing_credential_send_witness :
    (sendMessageStream { apiKey := "", chatInstance := none } "Hi"
        (StreamOutcome.success [⟨"x"⟩])).networkCalled = false
    ∧ (handleSendMessage
        { app := { messages := [], inputValue := "Hi", isLoading := false }
          svc := { apiKey := "", chatInstance := none }
          nextId := 0 }
        (StreamOutcome.success [⟨"x"⟩])).app.messages
        = [{ id := 0, role := Role.USER, text := "Hi", isError := false },
           { id := 1, role := Role.MODEL,
             text := configErrorDisplayText, isError := true }]
    ∧ ¬ configErrorDisplayText = genericErrorDisplayText := by
  have h := missing_credential_send
    { app := { messages := [], inputValue := "Hi", isLoading := false }
      svc := { apiKey := "", chatInstance := none }
      nextId := 0 }
    (StreamOutcome.success [⟨"x"⟩]) rfl (by decide) rfl
  refine ⟨h.1, ?_, h.2.2⟩
  rw [h.2.1]
  decide

/-- Claim C4: a confirmed reset always leaves exactly one message record
(a fresh greeting) and clears the pending input, regardless of the prior
history. -/
theorem reset_single_greeting (w : World) :
    (handleReset w true).app.messages
        = [{ id := w.nextId, role := Role.MODEL,
             text := resetGreetingText, isError := false }]
    ∧ (handleReset w true).app.messages.length = 1
    ∧ (handleReset w true).app.inputValue = "" :=
  ⟨rfl, rfl, rfl⟩

/-- Claim C5: a send request while busy, or with empty/whitespace-only
input, is a complete no-op on the program state. -/
theorem concurrent_send_guard (w : World) (outcome : StreamOutcome)
    (h : w.app.isLoading = true ∨ strTrim w.app.inputValue = "") :
    handleSendMessage w outcome = w := by
  rw [handleSendMessage, if_pos h.symm]

/-- Witness for C5: a busy send and a whitespace-only send are both
no-ops on a concrete state. -/
theorem concurrent_send_guard_witness :
    handleSendMessage
        { app := { messages := [], inputValue := "Hi", isLoading := true }
          svc := { apiKey := "k", chatInstance := none }
          nextId := 0 }
        (StreamOutcome.success [⟨"x"⟩])
      = { app := { messages := [], inputValue := "Hi", isLoading := true }
          svc := { apiKey := "k", chatInstance := none }
          nextId := 0 }
    ∧ handleSendMessage
        { app := { messages := [], inputValue := "  ", isLoading := false }
          svc := { apiKey := "k", chatInstance := none }
          nextId := 0 }
        (StreamOutcome.success [⟨"x"⟩])
      = { app := { messages := [], inputValue := "  ", isLoading := false }
          svc := { apiKey := "k", chatInstance := none }
          nextId := 0 } :=
  ⟨concurrent_send_guard _ _ (Or.inl rfl),
   concurrent_send_guard _ _ (Or.inr (by decide))⟩

/-- Claim C8: a send whose stream completes successfully with zero
(non-empty) fragments adds no assistant message at all — the list gains
only the user message — and the busy flag still clears. -/
theorem zero_fragment_success (w : World) (cs : List GenerateContentResponse)
    (hin : ¬ strTrim w.app.inputValue = "") (hbusy : w.app.isLoading = false)
    (hkey : ¬ w.svc.apiKey = "") (hfs : streamLoop cs [] = []) :
    (handleSendMessage w (StreamOutcome.success cs)).app.messages
        = w.app.messages ++
          [{ id := w.nextId, role := Role.USER,
             text := strTrim w.app.inputValue, isError := false }]
    ∧ (handleSendMessage w (StreamOutcome.success cs)).app.isLoading = false := by
  rw [handleSendMessage_success_nil w cs hin hbusy hkey hfs]
  exact ⟨rfl, rfl⟩

/-- Witness for C8: a concrete zero-fragment successful stream. -/
theorem zero_fragment_success_witness :
    (handleSendMessage
        { app := { messages := [], inputValue := "Hi", isLoading := false }
          svc := { apiKey := "k", chatInstance := none }
          nextId := 0 }
        (StreamOutcome.success [⟨""⟩])).app.messages
        = [{ id := 0, role := Role.USER, text := "Hi", isError := false }]
    ∧ (handleSendMessage
        { app := { messages := [], inputValue := "Hi", isLoading := false }
          svc := { apiKey := "k", chatInstance := none }
          nextId := 0 }
        (StreamOutcome.success [⟨""⟩])).app.isLoading = false := by
  have h := zero_fragment_success
    { app := { messages := [], inputValue := "Hi", isLoading := false }
      svc := { apiKey := "k", chatInstance := none }
      nextId := 0 }
    [⟨""⟩] (by decide) rfl (by decide) (by decide)
  refine ⟨?_, h.2⟩
  rw [h.1]
  decide

/-- Claim C10 (implicit): declining the reset confirmation prompt leaves
the whole program state — message list, pending input, session handle —
unchanged. -/
theorem reset_declined_noop (w : World) :
    handleReset w false = w
    ∧ (handleReset w false).app.messages = w.app.messages
    ∧ (handleReset w false).app.inputValue = w.app.inputValue
    ∧ (handleReset w false).svc.chatInstance = w.svc.chatInstance :=
  ⟨rfl, rfl, rfl, rfl⟩

/-- Claim C6: for every stream of responses, `sendMessageStream` invokes
`onChunk` exactly once per non-empty fragment, in arrival order (the
invocation log equals the in-order filtering of the stream to its
non-empty fragments), never invokes it for an empty fragment, and never
reorders fragments (the log is a sublist of the arrival sequence). -/
theorem chunk_callback_contract (s : ServiceState) (m : String)
    (outcome : StreamOutcome) (hkey : ¬ s.apiKey = "") :
    (sendMessageStream s m outcome).delivered
        = ((chunksOf outcome).map GenerateContentResponse.text).filter
            (fun t => !(t == ""))
    ∧ List.Sublist (sendMessageStream s m outcome).delivered
        ((chunksOf outcome).map GenerateContentResponse.text)
    ∧ ∀ t ∈ (sendMessageStream s m outcome).delivered, ¬ t = "" := by
  have hd : (sendMessageStream s m outcome).delivered
      = streamLoop (chunksOf outcome) [] := by
    cases outcome with
    | success cs => rw [sendMessageStream_success s m cs hkey]; rfl
    | failure cs em => rw [sendMessageStream_failure s m cs em hkey]; rfl
  rw [hd, streamLoop_eq_filter]
  refine ⟨rfl, List.filter_sublist _, ?_⟩
  intro t ht
  have := List.of_mem_filter ht
  simpa using this

/-- Witness for C6: a concrete stream with an empty fragment in the
middle. -/
theorem chunk_callback_contract_witness :
    (sendMessageStream { apiKey := "k", chatInstance := none } "Hi"
        (StreamOutcome.success [⟨"a"⟩, ⟨""⟩, ⟨"b"⟩])).delivered
        = (([⟨"a"⟩, ⟨""⟩, ⟨"b"⟩] :
            List GenerateContentResponse).map GenerateContentResponse.text).filter
            (fun t => !(t == ""))
    ∧ (sendMessageStream { apiKey := "k", chatInstance := none } "Hi"
        (StreamOutcome.success [⟨"a"⟩, ⟨""⟩, ⟨"b"⟩])).delivered = ["a", "b"] := by
  have h := chunk_callback_contract { apiKey := "k", chatInstance := none } "Hi"
    (StreamOutcome.success [⟨"a"⟩, ⟨""⟩, ⟨"b"⟩]) (by decide)
  exact ⟨h.1, by decide⟩

/-- Claim C7: on stream failure at any point, exactly one new `MODEL`
message flagged `isError = true` is appended, carrying the
credential-specific text when the error message mentions `API_KEY` and
the generic apology otherwise; the busy flag clears; and a partially
streamed assistant message created before the failure stays in place,
unchanged and not error-flagged. -/
theorem stream_failure_frame (w : World) (cs : List GenerateContentResponse)
    (em : String)
    (hin : ¬ strTrim w.app.inputValue = "") (hbusy : w.app.isLoading = false)
    (hkey : ¬ w.svc.apiKey = "") (hids : idsBounded w) :
    (handleSendMessage w (StreamOutcome.failure cs em)).app.isLoading = false
    ∧ (streamLoop cs [] = [] →
        (handleSendMessage w (StreamOutcome.failure cs em)).app.messages
          = w.app.messages ++
            [{ id := w.nextId, role := Role.USER,
               text := strTrim w.app.inputValue, isError := false },
             { id := w.nextId + 1, role := Role.MODEL,
               text := displayErrorFor em, isError := true }])
    ∧ (∀ f fs, streamLoop cs [] = f :: fs →
        (handleSendMessage w (StreamOutcome.failure cs em)).app.messages
          = w.app.messages ++
            [{ id := w.nextId, role := Role.USER,
               text := strTrim w.app.inputValue, isError := false },
             { id := w.nextId + 1, role := Role.MODEL,
               text := concatFragments (f :: fs), isError := false },
             { id := w.nextId + 2, role := Role.MODEL,
               text := displayErrorFor em, isError := true }])
    ∧ (strContains em "API_KEY" = true →
        displayErrorFor em = configErrorDisplayText)
    ∧ (strContains em "API_KEY" = false →
        displayErrorFor em = genericErrorDisplayText) := by
  refine ⟨?_, ?_, ?_, ?_, ?_⟩
  · rcases h : streamLoop cs [] with _ | ⟨f, fs⟩
    · rw [handleSendMessage_failure_nil w cs em hin hbusy hkey h]
    · rw [handleSendMessage_failure_cons w cs em f fs hin hbusy hkey hids h]
  · intro h
    rw [handleSendMessage_failure_nil w cs em hin hbusy hkey h]
  · intro f fs h
    rw [handleSendMessage_failure_cons w cs em f fs hin hbusy hkey hids h,
      concatFragments]
  · intro h
    rw [displayErrorFor, if_pos h]
  · intro h
    rw [displayErrorFor, if_neg (by simp [h])]

/-- Witness for C7: a stream that fails after one fragment leaves the
partial bubble as-is and appends one generic error bubble. -/
theorem stream_failure_frame_witness :
    (handleSendMessage
        { app := { messages := [], inputValue := "Hi", isLoading := false }
          svc := { apiKey := "k", chatInstance := none }
          nextId := 0 }
        (StreamOutcome.failure [⟨"Par"⟩] "boom")).app.messages
      = [{ id := 0, role := Role.USER, text := "Hi", isError := false },
         { id := 1, role := Role.MODEL, text := "Par", isError := false },
         { id := 2, role := Role.MODEL,
           text := genericErrorDisplayText, isError := true }]
    ∧ (handleSendMessage
        { app := { messages := [], inputValue := "Hi", isLoading := false }
          svc := { apiKey := "k", chatInstance := none }
          nextId := 0 }
        (StreamOutcome.failure [⟨"Par"⟩] "boom")).app.isLoading = false := by
  have h := stream_failure_frame
    { app := { messages := [], inputValue := "Hi", isLoading := false }
      svc := { apiKey := "k", chatInstance := none }
      nextId := 0 }
    [⟨"Par"⟩] "boom" (by decide) rfl (by decide) (by intro m hm; cases hm)
  refine ⟨?_, h.1⟩
  have h2 := h.2.2.1 "Par" [] (by decide)
  rw [h2]
  decide

/-- Claim C9: when no session handle exists and the credential is
present, `sendMessageStream` lazily creates a handle configured with the
fixed system instruction and temperature 0.7 before proceeding with the
send; the stream is contacted only with a non-null handle in place. -/
theorem lazy_init_fallback (s : ServiceState) (m : String)
    (outcome : StreamOutcome)
    (hkey : ¬ s.apiKey = "") (hinst : s.chatInstance = none) :
    (sendMessageStream s m outcome).svcAfter.chatInstance = some defaultChatConfig
    ∧ defaultChatConfig.systemInstruction = SYSTEM_INSTRUCTION
    ∧ defaultChatConfig.temperature = 7 / 10
    ∧ (sendMessageStream s m outcome).networkCalled = true
    ∧ ¬ (sendMessageStream s m outcome).svcAfter.chatInstance = none := by
  have hsvc : (sendMessageStream s m outcome).svcAfter = lazyInitSvc s
      ∧ (sendMessageStream s m outcome).networkCalled = true := by
    cases outcome with
    | success cs => rw [sendMessageStream_success s m cs hkey]; exact ⟨rfl, rfl⟩
    | failure cs em => rw [sendMessageStream_failure s m cs em hkey]; exact ⟨rfl, rfl⟩
  have hli : (lazyInitSvc s).chatInstance = some defaultChatConfig := by
    rw [lazyInitSvc, if_pos hinst]
    rfl
  refine ⟨by rw [hsvc.1, hli], rfl, rfl, hsvc.2, by rw [hsvc.1, hli]; simp⟩

/-- Witness for C9: a concrete send from an uninitialized service. -/
theorem lazy_init_fallback_witness :
    (sendMessageStream { apiKey := "k", chatInstance := none } "Hi"
        (StreamOutcome.success [⟨"x"⟩])).svcAfter.chatInstance
        = some defaultChatConfig
    ∧ defaultChatConfig.systemInstruction = SYSTEM_INSTRUCTION
    ∧ defaultChatConfig.temperature = 7 / 10
    ∧ (sendMessageStream { apiKey := "k", chatInstance := none } "Hi"
        (StreamOutcome.success [⟨"x"⟩])).networkCalled = true
    ∧ ¬ (sendMessageStream { apiKey := "k", chatInstance := none } "Hi"
        (StreamOutcome.success [⟨"x"⟩])).svcAfter.chatInstance = none :=
  lazy_init_fallback { apiKey := "k", chatInstance := none } "Hi"
    (StreamOutcome.success [⟨"x"⟩]) (by decide) rfl

lemma mountEffect_initWorld (key : String) :
    mountEffect (initWorld key)
      = { app :=
            { messages :=
                [{ id := 0, role := Role.MODEL,
                   text := greetingText, isError := false }]
              inputValue := ""
              isLoading := false }
          svc := { apiKey := key, chatInstance := some defaultChatConfig }
          nextId := 1 } :=
  rfl

lemma flatten_pairs_length (n : Nat) :
    ((List.replicate n [Role.USER, Role.MODEL]).flatten).length = 2 * n := by
  induction n with
  | zero => rfl
  | succ k ih =>
      rw [List.replicate_succ, List.flatten_cons, List.length_append, ih]
      show 2 + 2 * k = 2 * (k + 1)
      omega

/-- Claim C3 counterexample: one successful send after startup whose
stream resolves without delivering any fragment leaves 2 records in the
message list, not 1 + 2·1 = 3 as claimed for every sequence of
successful sends. -/
theorem message_list_shape_counterexample :
    (sendMessageStream { apiKey := "k", chatInstance := some defaultChatConfig }
        "hello" (StreamOutcome.success [])).result = SendResult.resolved
    ∧ (runSends (mountEffect (initWorld "k"))
        [("hello", [])]).app.messages.length = 2
    ∧ ¬ (runSends (mountEffect (initWorld "k"))
          [("hello", [])]).app.messages.length
        = 1 + 2 * ([("hello", ([] : List GenerateContentResponse))]).length := by
  refine ⟨rfl, by decide, by decide⟩

/-- Claim C3 (amended): for all sequences of N successful sends after
startup, each with non-empty trimmed input and each delivering at least
one non-empty fragment, the message list contains exactly 1 (greeting)
+ 2N records, alternating user/assistant pairs, with the user texts in
submission order. -/
theorem message_list_shape (key : String)
    (sends : List (String × List GenerateContentResponse))
    (hkey : ¬ key = "")
    (hsends : ∀ s ∈ sends, ¬ strTrim s.1 = "" ∧ streamLoop s.2 [] ≠ []) :
    (runSends (mountEffect (initWorld key)) sends).app.messages.length
        = 1 + 2 * sends.length
    ∧ (runSends (mountEffect (initWorld key)) sends).app.messages.map Message.role
        = Role.MODEL :: (List.replicate sends.length [Role.USER, Role.MODEL]).flatten
    ∧ ((runSends (mountEffect (initWorld key)) sends).app.messages.filter
          (fun m => m.role == Role.USER)).map Message.text
        = sends.map (fun s => strTrim s.1) := by
  have hids : idsBounded (mountEffect (initWorld key)) := by
    rw [mountEffect_initWorld]
    intro m hm
    simp only [List.mem_singleton] at hm
    subst hm
    exact Nat.zero_lt_one
  have hbusy : (mountEffect (initWorld key)).app.isLoading = false := rfl
  have hkey2 : ¬ (mountEffect (initWorld key)).svc.apiKey = "" := hkey
  obtain ⟨hroles, htexts⟩ :=
    runSends_shape sends (mountEffect (initWorld key)) hids hbusy hkey2 hsends
  have hmsgs : (mountEffect (initWorld key)).app.messages.map Message.role
      = [Role.MODEL] := rfl
  have hflt : ((mountEffect (initWorld key)).app.messages.filter
        (fun m => m.role == Role.USER)).map Message.text = [] := rfl
  have hconst : sends.map (fun _ => [Role.USER, Role.MODEL])
      = List.replicate sends.length [Role.USER, Role.MODEL] :=
    List.map_const sends [Role.USER, Role.MODEL]
  refine ⟨?_, ?_, ?_⟩
  · have h1 : (runSends (mountEffect (initWorld key)) sends).app.messages.length
        = ((runSends (mountEffect (initWorld key)) sends).app.messages.map
            Message.role).length :=
      (List.length_map _ _).symm
    rw [h1, hroles, hmsgs, hconst, List.length_append,
      flatten_pairs_length]
    rfl
  · rw [hroles, hmsgs, hconst, List.singleton_append]
  · rw [htexts, hflt, List.nil_append]

/-- Witness for the amended C3 at one concrete send. -/
theorem message_list_shape_witness :
    (runSends (mountEffect (initWorld "k"))
        [("I go to school yesterday", [⟨"Hi"⟩])]).app.messages.length = 3
    ∧ (runSends (mountEffect (initWorld "k"))
        [("I go to school yesterday", [⟨"Hi"⟩])]).app.messages.map Message.role
        = [Role.MODEL, Role.USER, Role.MODEL]
    ∧ ((runSends (mountEffect (initWorld "k"))
        [("I go to school yesterday", [⟨"Hi"⟩])]).app.messages.filter
          (fun m => m.role == Role.USER)).map Message.text
        = ["I go to school yesterday"] := by
  have h := message_list_shape "k" [("I go to school yesterday", [⟨"Hi"⟩])]
    (by decide) (by decide)
  exact ⟨h.1.trans (by decide), h.2.1.trans (by decide), h.2.2.trans (by decide)⟩

end EnglishGuru
